import Mathlib

/-!
Shallow embedding of `src/contact_filter.py` (class `ContactFilter`).

Pitch records are Python dicts accessed with `.get`; we model them as a
structure of optional fields.  Numeric values (exit velocities, rates) are
modelled as `ℚ`; Python `round(x, 1)` is round-half-to-even at one decimal,
modelled exactly on `ℚ`.  The mutable `self.stats` dictionary is modelled by
explicit state passing: every method that mutates it takes a `Stats` and
returns the updated `Stats` alongside its result.
-/

namespace ContactFilter

/-- A pitch record from the API: a dict with optional fields.
`pitch_call` missing models a dict without that key (`.get` returns `None`). -/
structure Pitch where
  pitch_call : Option String
  exit_speed : Option ℚ
  inning : Option ℤ
  pa_of_inning : Option ℤ
deriving DecidableEq

/-- The `CONTACT_CALLS` dict: raw call → contact category. -/
def CONTACT_CALLS (c : String) : Option String :=
  if c = "FoulBall" then some "foul"
  else if c = "FoulBallFieldable" then some "foul"
  else if c = "FoulBallNotFieldable" then some "foul"
  else if c = "InPlay" then some "in_play"
  else none

/-- The `NON_CONTACT_CALLS` dict: raw call → non-contact category. -/
def NON_CONTACT_CALLS (c : String) : Option String :=
  if c = "StrikeSwinging" then some "whiff"
  else if c = "StrikeCalled" then some "called_strike"
  else if c = "BallCalled" then some "ball"
  else if c = "HitByPitch" then some "hit_by_pitch"
  else if c = "Undefined" then some "undefined"
  else none

/-- `WEAK_CONTACT_THRESHOLD = 70`. -/
def WEAK_CONTACT_THRESHOLD : ℚ := 70

/-- `HARD_CONTACT_THRESHOLD = 95`. -/
def HARD_CONTACT_THRESHOLD : ℚ := 95

/-- `is_contact`: `pitch.get('pitch_call') in self.CONTACT_CALLS`
(a missing key yields `None`, which is in neither dict). -/
def is_contact (pitch : Pitch) : Bool :=
  match pitch.pitch_call with
  | none => false
  | some c => (CONTACT_CALLS c).isSome

/-- `is_non_contact`: `pitch.get('pitch_call') in self.NON_CONTACT_CALLS`. -/
def is_non_contact (pitch : Pitch) : Bool :=
  match pitch.pitch_call with
  | none => false
  | some c => (NON_CONTACT_CALLS c).isSome

/-- `get_event_category`: contact table first, then non-contact table,
else `'unknown'`. -/
def get_event_category (pitch : Pitch) : String :=
  match pitch.pitch_call with
  | none => "unknown"
  | some c =>
    match CONTACT_CALLS c with
    | some category => category
    | none =>
      match NON_CONTACT_CALLS c with
      | some category => category
      | none => "unknown"

/-- The nested bucket structure returned by `categorize_pitches`
(`contact.foul`, `contact.in_play`, `contact.all`, `non_contact.*`,
`unknown`), flattened into one record. -/
structure Categorized where
  foul : List Pitch
  in_play : List Pitch
  contact_all : List Pitch
  whiff : List Pitch
  called_strike : List Pitch
  ball : List Pitch
  hit_by_pitch : List Pitch
  undefined : List Pitch
  non_contact_all : List Pitch
  unknown : List Pitch
deriving DecidableEq

/-- The `self.stats` counter dictionary (eleven keys, as initialised by
`reset_stats`). -/
structure Stats where
  total_pitches_processed : ℕ
  contact_events_found : ℕ
  fouls_found : ℕ
  in_play_found : ℕ
  non_contact_events_found : ℕ
  whiffs_found : ℕ
  called_strikes_found : ℕ
  balls_found : ℕ
  hit_by_pitch_found : ℕ
  undefined_found : ℕ
  unknown_found : ℕ
deriving DecidableEq

/-- `reset_stats`: all counters zero. -/
def reset_stats : Stats :=
  { total_pitches_processed := 0
    contact_events_found := 0
    fouls_found := 0
    in_play_found := 0
    non_contact_events_found := 0
    whiffs_found := 0
    called_strikes_found := 0
    balls_found := 0
    hit_by_pitch_found := 0
    undefined_found := 0
    unknown_found := 0 }

/-- `get_stats`: returns a copy of the counters (a pure value in the
embedding). -/
def get_stats (stats : Stats) : Stats := stats

/-- The counter values of a `Stats` record, in the order `reset_stats`
initialises them. -/
def statsCounters (s : Stats) : List ℕ :=
  [s.total_pitches_processed, s.contact_events_found, s.fouls_found,
   s.in_play_found, s.non_contact_events_found, s.whiffs_found,
   s.called_strikes_found, s.balls_found, s.hit_by_pitch_found,
   s.undefined_found, s.unknown_found]

/-- The empty bucket structure built at the top of `categorize_pitches`. -/
def emptyCategorized : Categorized :=
  { foul := [], in_play := [], contact_all := [], whiff := [],
    called_strike := [], ball := [], hit_by_pitch := [], undefined := [],
    non_contact_all := [], unknown := [] }

/-- The body of the `for pitch in pitches` loop of `categorize_pitches`:
classify one pitch, append it to its leaf bucket and the matching `all`
bucket (or `unknown`), and bump the matching counters. -/
def categorizeStep (acc : Categorized × Stats) (pitch : Pitch) : Categorized × Stats :=
  match get_event_category pitch with
  | "foul" =>
    ({ acc.1 with foul := acc.1.foul ++ [pitch],
                  contact_all := acc.1.contact_all ++ [pitch] },
     { acc.2 with contact_events_found := acc.2.contact_events_found + 1,
                  fouls_found := acc.2.fouls_found + 1 })
  | "in_play" =>
    ({ acc.1 with in_play := acc.1.in_play ++ [pitch],
                  contact_all := acc.1.contact_all ++ [pitch] },
     { acc.2 with contact_events_found := acc.2.contact_events_found + 1,
                  in_play_found := acc.2.in_play_found + 1 })
  | "whiff" =>
    ({ acc.1 with whiff := acc.1.whiff ++ [pitch],
                  non_contact_all := acc.1.non_contact_all ++ [pitch] },
     { acc.2 with non_contact_events_found := acc.2.non_contact_events_found + 1,
                  whiffs_found := acc.2.whiffs_found + 1 })
  | "called_strike" =>
    ({ acc.1 with called_strike := acc.1.called_strike ++ [pitch],
                  non_contact_all := acc.1.non_contact_all ++ [pitch] },
     { acc.2 with non_contact_events_found := acc.2.non_contact_events_found + 1,
                  called_strikes_found := acc.2.called_strikes_found + 1 })
  | "ball" =>
    ({ acc.1 with ball := acc.1.ball ++ [pitch],
                  non_contact_all := acc.1.non_contact_all ++ [pitch] },
     { acc.2 with non_contact_events_found := acc.2.non_contact_events_found + 1,
                  balls_found := acc.2.balls_found + 1 })
  | "hit_by_pitch" =>
    ({ acc.1 with hit_by_pitch := acc.1.hit_by_pitch ++ [pitch],
                  non_contact_all := acc.1.non_contact_all ++ [pitch] },
     { acc.2 with non_contact_events_found := acc.2.non_contact_events_found + 1,
                  hit_by_pitch_found := acc.2.hit_by_pitch_found + 1 })
  | "undefined" =>
    ({ acc.1 with undefined := acc.1.undefined ++ [pitch],
                  non_contact_all := acc.1.non_contact_all ++ [pitch] },
     { acc.2 with non_contact_events_found := acc.2.non_contact_events_found + 1,
                  undefined_found := acc.2.undefined_found + 1 })
  | _ =>
    ({ acc.1 with unknown := acc.1.unknown ++ [pitch] },
     { acc.2 with unknown_found := acc.2.unknown_found + 1 })

/-- `categorize_pitches`: bump `total_pitches_processed` by the input length,
then run the loop over the pitches. -/
def categorize_pitches (stats : Stats) (pitches : List Pitch) : Categorized × Stats :=
  pitches.foldl categorizeStep
    (emptyCategorized,
     { stats with total_pitches_processed :=
         stats.total_pitches_processed + pitches.length })

/-- Bool predicate: the pitch classifies into bucket `c`. -/
def catIs (c : String) (pitch : Pitch) : Bool :=
  get_event_category pitch == c

/-- Bool predicate: the pitch classifies into a contact bucket. -/
def isContactCat (pitch : Pitch) : Bool :=
  catIs "foul" pitch || catIs "in_play" pitch

/-- Bool predicate: the pitch classifies into a non-contact bucket. -/
def isNonContactCat (pitch : Pitch) : Bool :=
  catIs "whiff" pitch || catIs "called_strike" pitch || catIs "ball" pitch ||
  catIs "hit_by_pitch" pitch || catIs "undefined" pitch

lemma CONTACT_CALLS_eq_some {c cat : String} (h : CONTACT_CALLS c = some cat) :
    cat = "foul" ∨ cat = "in_play" := by
  unfold CONTACT_CALLS at h
  split_ifs at h <;> simp_all

lemma NON_CONTACT_CALLS_eq_some {c cat : String} (h : NON_CONTACT_CALLS c = some cat) :
    cat = "whiff" ∨ cat = "called_strike" ∨ cat = "ball" ∨
    cat = "hit_by_pitch" ∨ cat = "undefined" := by
  unfold NON_CONTACT_CALLS at h
  split_ifs at h <;> simp_all

lemma get_event_category_cases (pitch : Pitch) :
    get_event_category pitch = "foul" ∨ get_event_category pitch = "in_play" ∨
    get_event_category pitch = "whiff" ∨ get_event_category pitch = "called_strike" ∨
    get_event_category pitch = "ball" ∨ get_event_category pitch = "hit_by_pitch" ∨
    get_event_category pitch = "undefined" ∨ get_event_category pitch = "unknown" := by
  unfold get_event_category
  cases hp : pitch.pitch_call with
  | none => simp
  | some c =>
    cases hC : CONTACT_CALLS c with
    | some cat =>
      rcases CONTACT_CALLS_eq_some hC with h | h <;> simp [hC, h]
    | none =>
      cases hN : NON_CONTACT_CALLS c with
      | some cat =>
        rcases NON_CONTACT_CALLS_eq_some hN with h | h | h | h | h <;> simp [hC, hN, h]
      | none => simp [hC, hN]

lemma foldl_categorizeStep (pitches : List Pitch) (r : Categorized) (s : Stats) :
    pitches.foldl categorizeStep (r, s) =
      ({ foul := r.foul ++ pitches.filter (catIs "foul"),
         in_play := r.in_play ++ pitches.filter (catIs "in_play"),
         contact_all := r.contact_all ++ pitches.filter isContactCat,
         whiff := r.whiff ++ pitches.filter (catIs "whiff"),
         called_strike := r.called_strike ++ pitches.filter (catIs "called_strike"),
         ball := r.ball ++ pitches.filter (catIs "ball"),
         hit_by_pitch := r.hit_by_pitch ++ pitches.filter (catIs "hit_by_pitch"),
         undefined := r.undefined ++ pitches.filter (catIs "undefined"),
         non_contact_all := r.non_contact_all ++ pitches.filter isNonContactCat,
         unknown := r.unknown ++ pitches.filter (catIs "unknown") },
       { total_pitches_processed := s.total_pitches_processed,
         contact_events_found := s.contact_events_found + pitches.countP isContactCat,
         fouls_found := s.fouls_found + pitches.countP (catIs "foul"),
         in_play_found := s.in_play_found + pitches.countP (catIs "in_play"),
         non_contact_events_found :=
           s.non_contact_events_found + pitches.countP isNonContactCat,
         whiffs_found := s.whiffs_found + pitches.countP (catIs "whiff"),
         called_strikes_found :=
           s.called_strikes_found + pitches.countP (catIs "called_strike"),
         balls_found := s.balls_found + pitches.countP (catIs "ball"),
         hit_by_pitch_found :=
           s.hit_by_pitch_found + pitches.countP (catIs "hit_by_pitch"),
         undefined_found := s.undefined_found + pitches.countP (catIs "undefined"),
         unknown_found := s.unknown_found + pitches.countP (catIs "unknown") }) := by
  induction pitches generalizing r s with
  | nil => simp
  | cons p rest ih =>
    rw [List.foldl_cons]
    rcases get_event_category_cases p with hc | hc | hc | hc | hc | hc | hc | hc <;>
      simp [categorizeStep, hc, ih, catIs, isContactCat, isNonContactCat,
        List.filter_cons, List.countP_cons] <;>
      omega

/-- Closed form of `categorize_pitches`: every bucket is the corresponding
filter of the input (in input order), every counter is bumped by the
corresponding count. -/
lemma categorize_pitches_eq (stats : Stats) (pitches : List Pitch) :
    categorize_pitches stats pitches =
      ({ foul := pitches.filter (catIs "foul"),
         in_play := pitches.filter (catIs "in_play"),
         contact_all := pitches.filter isContactCat,
         whiff := pitches.filter (catIs "whiff"),
         called_strike := pitches.filter (catIs "called_strike"),
         ball := pitches.filter (catIs "ball"),
         hit_by_pitch := pitches.filter (catIs "hit_by_pitch"),
         undefined := pitches.filter (catIs "undefined"),
         non_contact_all := pitches.filter isNonContactCat,
         unknown := pitches.filter (catIs "unknown") },
       { total_pitches_processed :=
           stats.total_pitches_processed + pitches.length,
         contact_events_found :=
           stats.contact_events_found + pitches.countP isContactCat,
         fouls_found := stats.fouls_found + pitches.countP (catIs "foul"),
         in_play_found := stats.in_play_found + pitches.countP (catIs "in_play"),
         non_contact_events_found :=
           stats.non_contact_events_found + pitches.countP isNonContactCat,
         whiffs_found := stats.whiffs_found + pitches.countP (catIs "whiff"),
         called_strikes_found :=
           stats.called_strikes_found + pitches.countP (catIs "called_strike"),
         balls_found := stats.balls_found + pitches.countP (catIs "ball"),
         hit_by_pitch_found :=
           stats.hit_by_pitch_found + pitches.countP (catIs "hit_by_pitch"),
         undefined_found :=
           stats.undefined_found + pitches.countP (catIs "undefined"),
         unknown_found :=
           stats.unknown_found + pitches.countP (catIs "unknown") }) := by
  unfold categorize_pitches
  rw [foldl_categorizeStep]
  simp [emptyCategorized]

/-- Python `round(x)` on an exact rational: round half to even. -/
def roundHalfToEven (x : ℚ) : ℤ :=
  if x - ⌊x⌋ < 1/2 then ⌊x⌋
  else if 1/2 < x - ⌊x⌋ then ⌊x⌋ + 1
  else if ⌊x⌋ % 2 = 0 then ⌊x⌋ else ⌊x⌋ + 1

/-- Python `round(x, 1)`: round to one decimal place, half to even. -/
def round1 (x : ℚ) : ℚ := (roundHalfToEven (10 * x) : ℚ) / 10

/-- Truthiness of `p.get('exit_speed')`: present and nonzero. -/
def speedTruthy (pitch : Pitch) : Bool :=
  match pitch.exit_speed with
  | none => false
  | some v => v != 0

/-- `p.get('exit_speed', 0)`. -/
def speedVal (pitch : Pitch) : ℚ := pitch.exit_speed.getD 0

def insertSorted (x : ℚ) : List ℚ → List ℚ
  | [] => [x]
  | y :: ys => if x ≤ y then x :: y :: ys else y :: insertSorted x ys

/-- Ascending insertion sort, used by the quantile computation. -/
def sortAsc (l : List ℚ) : List ℚ := l.foldr insertSorted []

/-- `pd.Series(l).quantile(q)` with the default linear interpolation:
position `h = (n-1)·q` in the ascending sort, linearly interpolated
between the two neighbouring order statistics. -/
def quantileLinear (l : List ℚ) (q : ℚ) : ℚ :=
  let s := sortAsc l
  let n := s.length
  let h : ℚ := ((n : ℚ) - 1) * q
  let lo : ℕ := (Int.floor h).toNat
  s.getD lo 0 + (h - (lo : ℚ)) * (s.getD (lo + 1) 0 - s.getD lo 0)

/-- Python `max` over a nonempty list (0 for the empty list, which the
source never reaches because it guards on `exit_speeds`). -/
def maxList (l : List ℚ) : ℚ :=
  match l with
  | [] => 0
  | x :: xs => xs.foldl max x

/-- The `exit_velo_percentiles` entry of the contact summary: the key is
absent in the early all-zero return, `{}` when no velocity values are
present, and the three rounded quantiles otherwise. -/
inductive PercentileField where
  | absentKey : PercentileField
  | emptyDict : PercentileField
  | computed (q25 q50 q75 : ℚ) : PercentileField
deriving DecidableEq

/-- The dictionary returned by `get_contact_summary`. -/
structure ContactSummary where
  total_contacts : ℕ
  fouls : ℕ
  in_play : ℕ
  weak_contact : ℕ
  hard_contact : ℕ
  contact_rate : ℚ
  foul_rate : ℚ
  in_play_rate : ℚ
  avg_exit_velo : ℚ
  max_exit_velo : ℚ
  exit_velo_percentiles : PercentileField
deriving DecidableEq

/-- `get_contact_summary`: categorize (mutating the counters), early
all-zero return when no contact pitches, otherwise counts, rates over the
full input length, and exit-velocity statistics over in-play pitches with
truthy `exit_speed`. -/
def get_contact_summary (stats : Stats) (pitches : List Pitch) :
    ContactSummary × Stats :=
  let cs := categorize_pitches stats pitches
  let contact_pitches := cs.1.contact_all
  if contact_pitches = [] then
    ({ total_contacts := 0, fouls := 0, in_play := 0, weak_contact := 0,
       hard_contact := 0, contact_rate := 0, foul_rate := 0, in_play_rate := 0,
       avg_exit_velo := 0, max_exit_velo := 0,
       exit_velo_percentiles := PercentileField.absentKey }, cs.2)
  else
    let in_play_pitches := cs.1.in_play
    let exit_speeds := (in_play_pitches.filter speedTruthy).map speedVal
    let weak_contact := exit_speeds.filter (fun s => s < WEAK_CONTACT_THRESHOLD)
    let hard_contact := exit_speeds.filter (fun s => HARD_CONTACT_THRESHOLD ≤ s)
    let total_pitches := pitches.length
    let contact_rate : ℚ :=
      if total_pitches > 0 then (contact_pitches.length : ℚ) / total_pitches * 100 else 0
    ({ total_contacts := contact_pitches.length,
       fouls := cs.1.foul.length,
       in_play := in_play_pitches.length,
       weak_contact := weak_contact.length,
       hard_contact := hard_contact.length,
       contact_rate := round1 contact_rate,
       foul_rate :=
         if total_pitches > 0 then
           round1 ((cs.1.foul.length : ℚ) / total_pitches * 100)
         else 0,
       in_play_rate :=
         if total_pitches > 0 then
           round1 ((in_play_pitches.length : ℚ) / total_pitches * 100)
         else 0,
       avg_exit_velo :=
         if exit_speeds ≠ [] then
           round1 (exit_speeds.sum / exit_speeds.length)
         else 0,
       max_exit_velo := if exit_speeds ≠ [] then maxList exit_speeds else 0,
       exit_velo_percentiles :=
         if exit_speeds ≠ [] then
           PercentileField.computed (round1 (quantileLinear exit_speeds (1/4)))
             (round1 (quantileLinear exit_speeds (1/2)))
             (round1 (quantileLinear exit_speeds (3/4)))
         else PercentileField.emptyDict }, cs.2)

/-- The dictionary returned by `get_non_contact_summary`. -/
structure NonContactSummary where
  total_non_contacts : ℕ
  whiffs : ℕ
  called_strikes : ℕ
  balls : ℕ
  hit_by_pitch : ℕ
  undefined : ℕ
  whiff_rate : ℚ
  called_strike_rate : ℚ
  ball_rate : ℚ
  hit_by_pitch_rate : ℚ
  swings : ℕ
  swing_rate : ℚ
  whiff_per_swing : ℚ
deriving DecidableEq

/-- `get_non_contact_summary`: categorize (mutating the counters), then
per-category counts and rates, swings = whiffs + contacts, with every
division guarded to 0 on a zero denominator. -/
def get_non_contact_summary (stats : Stats) (pitches : List Pitch) :
    NonContactSummary × Stats :=
  let cs := categorize_pitches stats pitches
  let non_contact := cs.1
  let total_pitches := pitches.length
  ({ total_non_contacts := non_contact.non_contact_all.length,
     whiffs := non_contact.whiff.length,
     called_strikes := non_contact.called_strike.length,
     balls := non_contact.ball.length,
     hit_by_pitch := non_contact.hit_by_pitch.length,
     undefined := non_contact.undefined.length,
     whiff_rate :=
       if total_pitches > 0 then
         round1 ((non_contact.whiff.length : ℚ) / total_pitches * 100)
       else 0,
     called_strike_rate :=
       if total_pitches > 0 then
         round1 ((non_contact.called_strike.length : ℚ) / total_pitches * 100)
       else 0,
     ball_rate :=
       if total_pitches > 0 then
         round1 ((non_contact.ball.length : ℚ) / total_pitches * 100)
       else 0,
     hit_by_pitch_rate :=
       if total_pitches > 0 then
         round1 ((non_contact.hit_by_pitch.length : ℚ) / total_pitches * 100)
       else 0,
     swings := non_contact.whiff.length + non_contact.contact_all.length,
     swing_rate :=
       if total_pitches > 0 then
         round1 (((non_contact.whiff.length + non_contact.contact_all.length : ℕ) : ℚ) /
           total_pitches * 100)
       else 0,
     whiff_per_swing :=
       if non_contact.whiff.length + non_contact.contact_all.length > 0 then
         round1 ((non_contact.whiff.length : ℚ) /
           ((non_contact.whiff.length + non_contact.contact_all.length : ℕ) : ℚ) * 100)
       else 0 }, cs.2)

/-- The dictionary returned by `get_complete_summary`.  The `timestamp`
entry (`datetime.now().isoformat()`) is a wall-clock effect and is not
modelled. -/
structure CompleteSummary where
  contact : ContactSummary
  non_contact : NonContactSummary
  pitches_analyzed : ℕ
deriving DecidableEq

/-- `get_complete_summary`: the contact summary, then the non-contact
summary (each re-categorizing and so mutating the counters again), plus
the totals block. -/
def get_complete_summary (stats : Stats) (pitches : List Pitch) :
    CompleteSummary × Stats :=
  let c := get_contact_summary stats pitches
  let nc := get_non_contact_summary c.2 pitches
  ({ contact := c.1, non_contact := nc.1, pitches_analyzed := pitches.length },
   nc.2)

/-- The grouping key `f"{inning}_{pa_num}"` with missing fields defaulting
to 0. -/
def paKey (pitch : Pitch) : String :=
  toString (pitch.inning.getD 0) ++ "_" ++ toString (pitch.pa_of_inning.getD 0)

/-- One iteration of the `pa_map` building loop: append the pitch to its
group, creating the group at the end on first sight (Python dicts preserve
insertion order). -/
def insertPA (pa_map : List (String × List Pitch)) (pitch : Pitch) :
    List (String × List Pitch) :=
  let pa_key := paKey pitch
  if pa_map.any (fun g => g.1 == pa_key) then
    pa_map.map (fun g => if g.1 == pa_key then (g.1, g.2 ++ [pitch]) else g)
  else pa_map ++ [(pa_key, [pitch])]

/-- The `pa_map` built by both plate-appearance counters. -/
def groupByPA (pitches : List Pitch) : List (String × List Pitch) :=
  pitches.foldl insertPA []

/-- `count_contact_plate_appearances`: groups with at least one contact. -/
def count_contact_plate_appearances (pitches : List Pitch) : ℕ :=
  (groupByPA pitches).countP (fun g => g.2.any is_contact)

/-- `count_non_contact_plate_appearances`: groups with no contact. -/
def count_non_contact_plate_appearances (pitches : List Pitch) : ℕ :=
  (groupByPA pitches).countP (fun g => !(g.2.any is_contact))

lemma groupByPA_append (P : List Pitch) (p : Pitch) :
    groupByPA (P ++ [p]) = insertPA (groupByPA P) p := by
  simp [groupByPA, List.foldl_append]

/-- Correctness of the `pa_map` building loop: the keys are the distinct
`paKey` values of the input, without duplicates, and each group holds
exactly the pitches with its key, in input order. -/
lemma groupByPA_spec (P : List Pitch) :
    ((groupByPA P).map Prod.fst).Nodup ∧
    (∀ k : String, k ∈ (groupByPA P).map Prod.fst ↔ ∃ p ∈ P, paKey p = k) ∧
    (∀ e ∈ groupByPA P, e.2 = P.filter (fun q => paKey q == e.1)) := by
  induction P using List.reverseRecOn with
  | nil => simp [groupByPA]
  | append_singleton P p ih =>
    obtain ⟨hnd, hmem, hval⟩ := ih
    rw [groupByPA_append]
    unfold insertPA
    by_cases hk : (groupByPA P).any (fun g => g.1 == paKey p)
    · rw [if_pos hk]
      have hfst :
          ((groupByPA P).map fun g =>
            if g.1 == paKey p then (g.1, g.2 ++ [p]) else g).map Prod.fst =
          (groupByPA P).map Prod.fst := by
        rw [List.map_map]
        apply List.map_congr_left
        intro g _
        by_cases hg : g.1 = paKey p <;> simp [hg]
      have hkey : ∃ q ∈ P, paKey q = paKey p := by
        rw [List.any_eq_true] at hk
        obtain ⟨g, hg, hgk⟩ := hk
        have : g.1 ∈ (groupByPA P).map Prod.fst := List.mem_map_of_mem _ hg
        rw [hmem] at this
        obtain ⟨q, hq, hqk⟩ := this
        exact ⟨q, hq, by rwa [eq_of_beq hgk] at hqk⟩
      refine ⟨by rwa [hfst], ?_, ?_⟩
      · intro k
        rw [hfst, hmem]
        constructor
        · rintro ⟨q, hq, hqk⟩
          exact ⟨q, by simp [hq], hqk⟩
        · rintro ⟨q, hq, hqk⟩
          rcases List.mem_append.mp hq with hq | hq
          · exact ⟨q, hq, hqk⟩
          · obtain ⟨q', hq', hq'k⟩ := hkey
            rcases List.mem_singleton.mp hq with rfl
            exact ⟨q', hq', by rwa [hq'k]⟩
      · intro e he
        obtain ⟨g, hg, hge⟩ := List.mem_map.mp he
        by_cases hgk : (g.1 == paKey p) = true
        · rw [if_pos hgk] at hge
          subst hge
          have h1 : g.1 = paKey p := eq_of_beq hgk
          show g.2 ++ [p] =
            List.filter (fun q => paKey q == g.1) (P ++ [p])
          rw [List.filter_append, ← hval g hg]
          simp [h1]
        · rw [if_neg hgk] at hge
          subst hge
          have h1 : g.1 ≠ paKey p := by simpa using hgk
          show g.2 = List.filter (fun q => paKey q == g.1) (P ++ [p])
          rw [List.filter_append, ← hval g hg]
          have h2 : ¬(paKey p == g.1) = true := by
            simp only [beq_iff_eq]
            exact fun h => h1 h.symm
          simp [h2]
    · rw [if_neg hk]
      have hnotin : paKey p ∉ (groupByPA P).map Prod.fst := by
        intro hin
        obtain ⟨g, hg, hgk⟩ := List.mem_map.mp hin
        exact hk (List.any_eq_true.mpr ⟨g, hg, by simp [hgk]⟩)
      have hnokey : ∀ q ∈ P, paKey q ≠ paKey p := by
        intro q hq hqk
        exact hnotin ((hmem (paKey p)).mpr ⟨q, hq, hqk⟩)
      refine ⟨?_, ?_, ?_⟩
      · rw [List.map_append, List.nodup_append]
        exact ⟨hnd, List.nodup_singleton _,
          fun k hkmem hkmem' => hnotin (by rwa [List.mem_singleton.mp hkmem'] at hkmem)⟩
      · intro k
        rw [List.map_append, List.mem_append, hmem]
        simp only [List.map_cons, List.map_nil, List.mem_singleton]
        constructor
        · rintro (⟨q, hq, hqk⟩ | rfl)
          · exact ⟨q, by simp [hq], hqk⟩
          · exact ⟨p, by simp, rfl⟩
        · rintro ⟨q, hq, hqk⟩
          rcases List.mem_append.mp hq with hq | hq
          · exact Or.inl ⟨q, hq, hqk⟩
          · rcases List.mem_singleton.mp hq with rfl
            exact Or.inr hqk.symm
      · intro e he
        rcases List.mem_append.mp he with he | he
        · rw [hval e he, List.filter_append]
          have he1 : e.1 ∈ (groupByPA P).map Prod.fst := List.mem_map_of_mem _ he
          have h2 : ¬(paKey p == e.1) = true := by
            simp only [beq_iff_eq]
            intro h
            exact hnotin (by rwa [h])
          simp [h2]
        · rcases List.mem_singleton.mp he with rfl
          simp only [List.filter_append]
          have h1 : P.filter (fun q => paKey q == paKey p) = [] := by
            rw [List.filter_eq_nil_iff]
            intro q hq
            simp [hnokey q hq]
          simp [h1]

lemma groupByPA_length (P : List Pitch) :
    (groupByPA P).length = ((P.map paKey).dedup).length := by
  obtain ⟨hnd, hmem, -⟩ := groupByPA_spec P
  have hperm : ((groupByPA P).map Prod.fst).Perm ((P.map paKey).dedup) := by
    rw [List.perm_ext_iff_of_nodup hnd (List.nodup_dedup _)]
    intro k
    rw [hmem, List.mem_dedup, List.mem_map]
  have := hperm.length_eq
  simpa using this

/-- The group predicate "contains a contact pitch" depends only on the key:
it equals "some pitch of the input with this key is a contact". -/
lemma groupByPA_contact_pred (P : List Pitch) :
    ∀ e ∈ groupByPA P,
      e.2.any is_contact = P.any (fun q => paKey q == e.1 && is_contact q) := by
  intro e he
  obtain ⟨-, -, hval⟩ := groupByPA_spec P
  rw [hval e he, List.any_filter]

lemma count_pa_eq_countP_keys (P : List Pitch) :
    count_contact_plate_appearances P =
      ((P.map paKey).dedup).countP
        (fun k => P.any fun q => paKey q == k && is_contact q) := by
  unfold count_contact_plate_appearances
  obtain ⟨hnd, hmem, -⟩ := groupByPA_spec P
  have h1 : (groupByPA P).countP (fun g => g.2.any is_contact) =
      (groupByPA P).countP
        (fun g => P.any fun q => paKey q == g.1 && is_contact q) := by
    apply List.countP_congr
    intro e he
    rw [groupByPA_contact_pred P e he]
  rw [h1]
  have h2 : (groupByPA P).countP
        (fun g => P.any fun q => paKey q == g.1 && is_contact q) =
      ((groupByPA P).map Prod.fst).countP
        (fun k => P.any fun q => paKey q == k && is_contact q) := by
    rw [List.countP_map]
    rfl
  rw [h2]
  have hperm : ((groupByPA P).map Prod.fst).Perm ((P.map paKey).dedup) := by
    rw [List.perm_ext_iff_of_nodup hnd (List.nodup_dedup _)]
    intro k
    rw [hmem, List.mem_dedup, List.mem_map]
  exact hperm.countP_eq _

lemma count_pa_non_eq_countP_keys (P : List Pitch) :
    count_non_contact_plate_appearances P =
      ((P.map paKey).dedup).countP
        (fun k => !(P.any fun q => paKey q == k && is_contact q)) := by
  unfold count_non_contact_plate_appearances
  obtain ⟨hnd, hmem, -⟩ := groupByPA_spec P
  have h1 : (groupByPA P).countP (fun g => !(g.2.any is_contact)) =
      (groupByPA P).countP
        (fun g => !(P.any fun q => paKey q == g.1 && is_contact q)) := by
    apply List.countP_congr
    intro e he
    rw [groupByPA_contact_pred P e he]
  rw [h1]
  have h2 : (groupByPA P).countP
        (fun g => !(P.any fun q => paKey q == g.1 && is_contact q)) =
      ((groupByPA P).map Prod.fst).countP
        (fun k => !(P.any fun q => paKey q == k && is_contact q)) := by
    rw [List.countP_map]
    rfl
  rw [h2]
  have hperm : ((groupByPA P).map Prod.fst).Perm ((P.map paKey).dedup) := by
    rw [List.perm_ext_iff_of_nodup hnd (List.nodup_dedup _)]
    intro k
    rw [hmem, List.mem_dedup, List.mem_map]
  exact hperm.countP_eq _

lemma roundHalfToEven_le {x : ℚ} {n : ℤ} (h : x ≤ (n : ℚ)) :
    roundHalfToEven x ≤ n := by
  unfold roundHalfToEven
  have hfx : (⌊x⌋ : ℚ) ≤ x := Int.floor_le x
  have hf : ⌊x⌋ ≤ n := by exact_mod_cast hfx.trans h
  split_ifs with h1 h2 h3
  · exact hf
  · have hlt : (⌊x⌋ : ℚ) < x := by linarith
    have hq : (⌊x⌋ : ℚ) < (n : ℚ) := lt_of_lt_of_le hlt h
    have : ⌊x⌋ < n := by exact_mod_cast hq
    omega
  · exact hf
  · have hge : ¬(x - ⌊x⌋ < 1/2) := h1
    have hlt : (⌊x⌋ : ℚ) < x := by
      push_neg at hge
      linarith
    have hq : (⌊x⌋ : ℚ) < (n : ℚ) := lt_of_lt_of_le hlt h
    have : ⌊x⌋ < n := by exact_mod_cast hq
    omega

lemma le_roundHalfToEven {x : ℚ} {n : ℤ} (h : (n : ℚ) ≤ x) :
    n ≤ roundHalfToEven x := by
  unfold roundHalfToEven
  have hf : n ≤ ⌊x⌋ := Int.le_floor.mpr h
  split_ifs with h1 h2 h3 <;> omega

/-- `round(x, 1)` stays inside `[0, 100]` when its argument does. -/
lemma round1_bounds {x : ℚ} (h0 : 0 ≤ x) (h1 : x ≤ 100) :
    0 ≤ round1 x ∧ round1 x ≤ 100 := by
  unfold round1
  have hle : roundHalfToEven (10 * x) ≤ (1000 : ℤ) :=
    roundHalfToEven_le (by push_cast; linarith)
  have hge : (0 : ℤ) ≤ roundHalfToEven (10 * x) :=
    le_roundHalfToEven (by push_cast; linarith)
  constructor
  · apply div_nonneg _ (by norm_num : (0:ℚ) ≤ 10)
    exact_mod_cast hge
  · rw [div_le_iff₀ (by norm_num : (0:ℚ) < 10)]
    calc ((roundHalfToEven (10 * x) : ℤ) : ℚ) ≤ ((1000 : ℤ) : ℚ) := by
          exact_mod_cast hle
      _ = 100 * 10 := by norm_num

/-- A guarded rounded percentage `count / total * 100` lies in `[0, 100]`
whenever the count is at most the total. -/
lemma guarded_rate_bounds {a b : ℕ} (hab : a ≤ b) :
    0 ≤ (if b > 0 then round1 ((a : ℚ) / (b : ℚ) * 100) else 0) ∧
      (if b > 0 then round1 ((a : ℚ) / (b : ℚ) * 100) else 0) ≤ 100 := by
  split_ifs with hb
  · have hb' : (0 : ℚ) < b := by exact_mod_cast hb
    have ha' : (a : ℚ) ≤ (b : ℚ) := by exact_mod_cast hab
    have h0 : 0 ≤ (a : ℚ) / b * 100 := by positivity
    have h1 : (a : ℚ) / b * 100 ≤ 100 := by
      rw [div_mul_eq_mul_div, div_le_iff₀ hb']
      nlinarith
    exact round1_bounds h0 h1
  · norm_num

/-- Every pitch classifies into exactly one of: a contact category, a
non-contact category, or `unknown`. -/
lemma countP_three_partition (P : List Pitch) :
    P.countP isContactCat + P.countP isNonContactCat +
      P.countP (catIs "unknown") = P.length := by
  induction P with
  | nil => simp
  | cons p rest ih =>
    rcases get_event_category_cases p with hc | hc | hc | hc | hc | hc | hc | hc <;>
      simp [List.countP_cons, isContactCat, isNonContactCat, catIs, hc] <;>
      omega

lemma whiff_add_contact_le_length (P : List Pitch) :
    P.countP (catIs "whiff") + P.countP isContactCat ≤ P.length := by
  induction P with
  | nil => simp
  | cons p rest ih =>
    rcases get_event_category_cases p with hc | hc | hc | hc | hc | hc | hc | hc <;>
      simp [List.countP_cons, isContactCat, catIs, hc] <;>
      omega

/-- C1: `categorize_pitches` partitions the input: the lengths of
`contact.all`, `non_contact.all` and `unknown` sum to the input length, and
every bucket (the three aggregates and the seven leaves) equals the filter
of the input by its category predicate, hence lists its pitches in input
order. -/
theorem categorize_pitches_partitions (stats : Stats) (P : List Pitch) :
    (categorize_pitches stats P).1.contact_all.length +
        (categorize_pitches stats P).1.non_contact_all.length +
        (categorize_pitches stats P).1.unknown.length = P.length ∧
    (categorize_pitches stats P).1.contact_all = P.filter isContactCat ∧
    (categorize_pitches stats P).1.non_contact_all = P.filter isNonContactCat ∧
    (categorize_pitches stats P).1.unknown = P.filter (catIs "unknown") ∧
    (categorize_pitches stats P).1.foul = P.filter (catIs "foul") ∧
    (categorize_pitches stats P).1.in_play = P.filter (catIs "in_play") ∧
    (categorize_pitches stats P).1.whiff = P.filter (catIs "whiff") ∧
    (categorize_pitches stats P).1.called_strike = P.filter (catIs "called_strike") ∧
    (categorize_pitches stats P).1.ball = P.filter (catIs "ball") ∧
    (categorize_pitches stats P).1.hit_by_pitch = P.filter (catIs "hit_by_pitch") ∧
    (categorize_pitches stats P).1.undefined = P.filter (catIs "undefined") := by
  rw [categorize_pitches_eq]
  refine ⟨?_, rfl, rfl, rfl, rfl, rfl, rfl, rfl, rfl, rfl, rfl⟩
  simp only [← List.countP_eq_length_filter]
  exact countP_three_partition P

/-- C5: one call to `categorize_pitches` adds the input length to
`total_pitches_processed` and, for each pitch, adds 1 to exactly the
counter of its category together with the matching aggregate counter;
the full record equality shows no other counter changes.  A pitch whose
`pitch_call` key is missing classifies as `unknown`. -/
theorem categorize_pitches_counter_effect (stats : Stats) (P : List Pitch) :
    (categorize_pitches stats P).2 =
      { total_pitches_processed := stats.total_pitches_processed + P.length,
        contact_events_found :=
          stats.contact_events_found + P.countP isContactCat,
        fouls_found := stats.fouls_found + P.countP (catIs "foul"),
        in_play_found := stats.in_play_found + P.countP (catIs "in_play"),
        non_contact_events_found :=
          stats.non_contact_events_found + P.countP isNonContactCat,
        whiffs_found := stats.whiffs_found + P.countP (catIs "whiff"),
        called_strikes_found :=
          stats.called_strikes_found + P.countP (catIs "called_strike"),
        balls_found := stats.balls_found + P.countP (catIs "ball"),
        hit_by_pitch_found :=
          stats.hit_by_pitch_found + P.countP (catIs "hit_by_pitch"),
        undefined_found :=
          stats.undefined_found + P.countP (catIs "undefined"),
        unknown_found :=
          stats.unknown_found + P.countP (catIs "unknown") } ∧
    (∀ (es : Option ℚ) (inn pa : Option ℤ),
      catIs "unknown" ⟨none, es, inn, pa⟩ = true) := by
  constructor
  · rw [categorize_pitches_eq]
  · intro es inn pa
    simp [catIs, get_event_category]

/-- C6 counterexample: the stats dictionary holds eleven counters, not
thirteen, so the counter set after `reset_stats` and `get_stats` does not
consist of thirteen zeroes. -/
theorem reset_stats_not_thirteen_counters :
    ¬statsCounters (get_stats reset_stats) = List.replicate 13 0 := by
  decide

/-- C6 (amended: the dictionary holds eleven counters, not thirteen):
`reset_stats` zeroes all eleven running counters, so `reset_stats` followed
by `get_stats` yields a counter set in which every counter is zero. -/
theorem reset_stats_zeroes_eleven :
    statsCounters (get_stats reset_stats) = List.replicate 11 0 := by
  decide

/-- C8: `is_contact` holds iff `pitch_call` is one of `FoulBall`,
`FoulBallFieldable`, `FoulBallNotFieldable`, `InPlay`; it is false whenever
the `pitch_call` key is missing. -/
theorem is_contact_iff_call (p : Pitch) :
    (is_contact p = true ↔
      p.pitch_call = some "FoulBall" ∨ p.pitch_call = some "FoulBallFieldable" ∨
      p.pitch_call = some "FoulBallNotFieldable" ∨ p.pitch_call = some "InPlay") ∧
    is_contact ⟨none, p.exit_speed, p.inning, p.pa_of_inning⟩ = false := by
  constructor
  · cases hp : p.pitch_call with
    | none => simp [is_contact, hp]
    | some c =>
      simp only [is_contact, hp, Option.some.injEq]
      unfold CONTACT_CALLS
      split_ifs with h1 h2 h3 h4 <;> simp_all
  · simp [is_contact]

lemma get_contact_summary_snd (stats : Stats) (P : List Pitch) :
    (get_contact_summary stats P).2 = (categorize_pitches stats P).2 := by
  unfold get_contact_summary
  dsimp only
  split <;> rfl

lemma get_non_contact_summary_snd (stats : Stats) (P : List Pitch) :
    (get_non_contact_summary stats P).2 = (categorize_pitches stats P).2 := rfl

/-- C9: `get_complete_summary` categorizes the input twice (once inside each
summary), so one call adds `2·len(P)` to `total_pitches_processed` and adds
every per-category count twice. -/
theorem complete_summary_double_count (stats : Stats) (P : List Pitch) :
    (get_complete_summary stats P).2 =
      { total_pitches_processed :=
          stats.total_pitches_processed + 2 * P.length,
        contact_events_found :=
          stats.contact_events_found + 2 * P.countP isContactCat,
        fouls_found := stats.fouls_found + 2 * P.countP (catIs "foul"),
        in_play_found :=
          stats.in_play_found + 2 * P.countP (catIs "in_play"),
        non_contact_events_found :=
          stats.non_contact_events_found + 2 * P.countP isNonContactCat,
        whiffs_found := stats.whiffs_found + 2 * P.countP (catIs "whiff"),
        called_strikes_found :=
          stats.called_strikes_found + 2 * P.countP (catIs "called_strike"),
        balls_found := stats.balls_found + 2 * P.countP (catIs "ball"),
        hit_by_pitch_found :=
          stats.hit_by_pitch_found + 2 * P.countP (catIs "hit_by_pitch"),
        undefined_found :=
          stats.undefined_found + 2 * P.countP (catIs "undefined"),
        unknown_found :=
          stats.unknown_found + 2 * P.countP (catIs "unknown") } := by
  have h : (get_complete_summary stats P).2 =
      (get_non_contact_summary (get_contact_summary stats P).2 P).2 := rfl
  rw [h, get_non_contact_summary_snd, get_contact_summary_snd,
    categorize_pitches_eq, categorize_pitches_eq]
  simp only [Stats.mk.injEq]
  omega

/-- C4: both plate-appearance counters group the pitches by the composite
key `"{inning}_{pa_of_inning}"` (missing fields default to 0);
`count_contact_plate_appearances` counts the distinct keys whose group
contains a contact pitch, `count_non_contact_plate_appearances` those whose
group contains none.  For one `InPlay` and one `BallCalled` pitch sharing
`inning=1, pa_of_inning=1` the counts are 1 and 0. -/
theorem plate_appearance_grouping (P : List Pitch) :
    count_contact_plate_appearances P =
      ((P.map paKey).dedup).countP
        (fun k => P.any fun q => paKey q == k && is_contact q) ∧
    count_non_contact_plate_appearances P =
      ((P.map paKey).dedup).countP
        (fun k => !(P.any fun q => paKey q == k && is_contact q)) ∧
    count_contact_plate_appearances
      [⟨some "InPlay", none, some 1, some 1⟩,
       ⟨some "BallCalled", none, some 1, some 1⟩] = 1 ∧
    count_non_contact_plate_appearances
      [⟨some "InPlay", none, some 1, some 1⟩,
       ⟨some "BallCalled", none, some 1, some 1⟩] = 0 := by
  refine ⟨count_pa_eq_countP_keys P, count_pa_non_eq_countP_keys P, ?_, ?_⟩ <;>
    decide

/-- C10: the two plate-appearance counts sum to the number of distinct
grouping keys `"{inning}_{pa_of_inning}"` of the input. -/
theorem plate_appearance_counts_sum (P : List Pitch) :
    count_contact_plate_appearances P + count_non_contact_plate_appearances P =
      ((P.map paKey).dedup).length := by
  rw [count_pa_eq_countP_keys, count_pa_non_eq_countP_keys]
  rw [List.length_eq_countP_add_countP
    (fun k => P.any fun q => paKey q == k && is_contact q)]
  congr 1
  apply List.countP_congr
  intro k _
  simp

lemma exit_speed_count (P : List Pitch) (q : ℚ → Bool) :
    ((((P.filter (catIs "in_play")).filter speedTruthy).map speedVal).filter q).length
      = P.countP (fun p => catIs "in_play" p && speedTruthy p && q (speedVal p)) := by
  rw [← List.countP_eq_length_filter, List.countP_map, List.countP_filter,
    List.countP_filter]
  apply List.countP_congr
  intro p _
  simp only [Function.comp, Bool.and_eq_true]
  tauto

/-- C2: `weak_contact` counts exactly the in-play pitches with a present,
truthy `exit_speed` strictly below 70; `hard_contact` those at or above 95
(inclusive); `avg_exit_velo` and `max_exit_velo` are taken over that same
filtered in-play sample.  On the four-pitch scenario the summary is
`total_contacts=2, in_play=2, weak_contact=1, hard_contact=1,
avg_exit_velo=80.0, contact_rate=50.0`. -/
theorem get_contact_summary_thresholds (stats : Stats) (P : List Pitch) :
    (get_contact_summary stats P).1.weak_contact =
      P.countP (fun p => catIs "in_play" p && speedTruthy p &&
        decide (speedVal p < 70)) ∧
    (get_contact_summary stats P).1.hard_contact =
      P.countP (fun p => catIs "in_play" p && speedTruthy p &&
        decide (95 ≤ speedVal p)) ∧
    (get_contact_summary stats P).1.avg_exit_velo =
      (if ((P.filter (catIs "in_play")).filter speedTruthy).map speedVal ≠ [] then
        round1 ((((P.filter (catIs "in_play")).filter speedTruthy).map speedVal).sum /
          ((((P.filter (catIs "in_play")).filter speedTruthy).map speedVal).length : ℚ))
      else 0) ∧
    (get_contact_summary stats P).1.max_exit_velo =
      (if ((P.filter (catIs "in_play")).filter speedTruthy).map speedVal ≠ [] then
        maxList (((P.filter (catIs "in_play")).filter speedTruthy).map speedVal)
      else 0) ∧
    (get_contact_summary stats
      [⟨some "InPlay", some 60, none, none⟩, ⟨some "InPlay", some 100, none, none⟩,
       ⟨some "StrikeSwinging", none, none, none⟩,
       ⟨some "BallCalled", none, none, none⟩]).1.total_contacts = 2 ∧
    (get_contact_summary stats
      [⟨some "InPlay", some 60, none, none⟩, ⟨some "InPlay", some 100, none, none⟩,
       ⟨some "StrikeSwinging", none, none, none⟩,
       ⟨some "BallCalled", none, none, none⟩]).1.in_play = 2 ∧
    (get_contact_summary stats
      [⟨some "InPlay", some 60, none, none⟩, ⟨some "InPlay", some 100, none, none⟩,
       ⟨some "StrikeSwinging", none, none, none⟩,
       ⟨some "BallCalled", none, none, none⟩]).1.weak_contact = 1 ∧
    (get_contact_summary stats
      [⟨some "InPlay", some 60, none, none⟩, ⟨some "InPlay", some 100, none, none⟩,
       ⟨some "StrikeSwinging", none, none, none⟩,
       ⟨some "BallCalled", none, none, none⟩]).1.hard_contact = 1 ∧
    (get_contact_summary stats
      [⟨some "InPlay", some 60, none, none⟩, ⟨some "InPlay", some 100, none, none⟩,
       ⟨some "StrikeSwinging", none, none, none⟩,
       ⟨some "BallCalled", none, none, none⟩]).1.avg_exit_velo = 80 ∧
    (get_contact_summary stats
      [⟨some "InPlay", some 60, none, none⟩, ⟨some "InPlay", some 100, none, none⟩,
       ⟨some "StrikeSwinging", none, none, none⟩,
       ⟨some "BallCalled", none, none, none⟩]).1.contact_rate = 50 := by
  have hgen : ∀ (Q : List Pitch),
      (get_contact_summary stats Q).1.weak_contact =
        Q.countP (fun p => catIs "in_play" p && speedTruthy p &&
          decide (speedVal p < 70)) ∧
      (get_contact_summary stats Q).1.hard_contact =
        Q.countP (fun p => catIs "in_play" p && speedTruthy p &&
          decide (95 ≤ speedVal p)) ∧
      (get_contact_summary stats Q).1.avg_exit_velo =
        (if ((Q.filter (catIs "in_play")).filter speedTruthy).map speedVal ≠ [] then
          round1 ((((Q.filter (catIs "in_play")).filter speedTruthy).map speedVal).sum /
            ((((Q.filter (catIs "in_play")).filter speedTruthy).map speedVal).length : ℚ))
        else 0) ∧
      (get_contact_summary stats Q).1.max_exit_velo =
        (if ((Q.filter (catIs "in_play")).filter speedTruthy).map speedVal ≠ [] then
          maxList (((Q.filter (catIs "in_play")).filter speedTruthy).map speedVal)
        else 0) := by
    intro Q
    unfold get_contact_summary
    dsimp only
    rw [categorize_pitches_eq]
    dsimp only
    by_cases hQ : Q.filter isContactCat = []
    · rw [if_pos hQ]
      dsimp only
      have hnone : ∀ p ∈ Q, ¬isContactCat p = true :=
        List.filter_eq_nil_iff.mp hQ
      have hip : Q.filter (catIs "in_play") = [] := by
        rw [List.filter_eq_nil_iff]
        intro p hp
        have := hnone p hp
        simp only [isContactCat, Bool.or_eq_true] at this
        tauto
      have hcount : ∀ (q : ℚ → Bool),
          Q.countP (fun p => catIs "in_play" p && speedTruthy p &&
            q (speedVal p)) = 0 := by
        intro q
        rw [List.countP_eq_zero]
        intro p hp
        have := hnone p hp
        simp only [isContactCat, Bool.or_eq_true] at this
        simp only [Bool.and_eq_true]
        tauto
      refine ⟨(hcount (fun v => decide (v < 70))).symm,
        (hcount (fun v => decide (95 ≤ v))).symm, ?_, ?_⟩ <;> simp [hip]
    · rw [if_neg hQ]
      refine ⟨?_, ?_, rfl, rfl⟩
      · rw [show (fun s : ℚ => decide (s < WEAK_CONTACT_THRESHOLD)) =
          (fun s : ℚ => decide (s < 70)) from rfl]
        exact exit_speed_count Q _
      · rw [show (fun s : ℚ => decide (HARD_CONTACT_THRESHOLD ≤ s)) =
          (fun s : ℚ => decide (95 ≤ s)) from rfl]
        exact exit_speed_count Q _
  obtain ⟨h1, h2, h3, h4⟩ := hgen P
  have hc : (categorize_pitches stats
      [⟨some "InPlay", some 60, none, none⟩, ⟨some "InPlay", some 100, none, none⟩,
       ⟨some "StrikeSwinging", none, none, none⟩,
       ⟨some "BallCalled", none, none, none⟩]).1 =
      { foul := [],
        in_play := [⟨some "InPlay", some 60, none, none⟩,
          ⟨some "InPlay", some 100, none, none⟩],
        contact_all := [⟨some "InPlay", some 60, none, none⟩,
          ⟨some "InPlay", some 100, none, none⟩],
        whiff := [⟨some "StrikeSwinging", none, none, none⟩],
        called_strike := [],
        ball := [⟨some "BallCalled", none, none, none⟩],
        hit_by_pitch := [],
        undefined := [],
        non_contact_all := [⟨some "StrikeSwinging", none, none, none⟩,
          ⟨some "BallCalled", none, none, none⟩],
        unknown := [] } := rfl
  refine ⟨h1, h2, h3, h4, ?_, ?_, ?_, ?_, ?_, ?_⟩
  all_goals
    unfold get_contact_summary
    dsimp only
    rw [hc]
    rw [if_neg (List.cons_ne_nil _ _)]
    norm_num [speedTruthy, speedVal, WEAK_CONTACT_THRESHOLD,
      HARD_CONTACT_THRESHOLD, round1, roundHalfToEven, maxList, max_def,
      bne_iff_ne] <;>
    simp

/-- Closed form of `get_non_contact_summary`'s returned dictionary. -/
lemma get_non_contact_summary_fst (stats : Stats) (Q : List Pitch) :
    (get_non_contact_summary stats Q).1 =
      { total_non_contacts := (Q.filter isNonContactCat).length,
        whiffs := (Q.filter (catIs "whiff")).length,
        called_strikes := (Q.filter (catIs "called_strike")).length,
        balls := (Q.filter (catIs "ball")).length,
        hit_by_pitch := (Q.filter (catIs "hit_by_pitch")).length,
        undefined := (Q.filter (catIs "undefined")).length,
        whiff_rate :=
          if Q.length > 0 then
            round1 (((Q.filter (catIs "whiff")).length : ℚ) / (Q.length : ℚ) * 100)
          else 0,
        called_strike_rate :=
          if Q.length > 0 then
            round1 (((Q.filter (catIs "called_strike")).length : ℚ) /
              (Q.length : ℚ) * 100)
          else 0,
        ball_rate :=
          if Q.length > 0 then
            round1 (((Q.filter (catIs "ball")).length : ℚ) / (Q.length : ℚ) * 100)
          else 0,
        hit_by_pitch_rate :=
          if Q.length > 0 then
            round1 (((Q.filter (catIs "hit_by_pitch")).length : ℚ) /
              (Q.length : ℚ) * 100)
          else 0,
        swings :=
          (Q.filter (catIs "whiff")).length + (Q.filter isContactCat).length,
        swing_rate :=
          if Q.length > 0 then
            round1 ((((Q.filter (catIs "whiff")).length +
              (Q.filter isContactCat).length : ℕ) : ℚ) / (Q.length : ℚ) * 100)
          else 0,
        whiff_per_swing :=
          if (Q.filter (catIs "whiff")).length +
              (Q.filter isContactCat).length > 0 then
            round1 (((Q.filter (catIs "whiff")).length : ℚ) /
              (((Q.filter (catIs "whiff")).length +
                (Q.filter isContactCat).length : ℕ) : ℚ) * 100)
          else 0 } := by
  unfold get_non_contact_summary
  dsimp only
  rw [categorize_pitches_eq]

/-- C3: `swings` is the whiff count plus the total contact count,
`swing_rate` is `swings / total · 100` and `whiff_per_swing` is
`whiffs / swings · 100` (both rounded to 1 decimal per the spec), each
division guarded to 0 on a zero denominator; every rate field lies in
`[0, 100]`, and all rates are 0 on an empty input. -/
theorem get_non_contact_summary_rates (stats : Stats) (P : List Pitch) :
    (get_non_contact_summary stats P).1.swings =
      P.countP (catIs "whiff") + P.countP isContactCat ∧
    (get_non_contact_summary stats P).1.swing_rate =
      (if P.length > 0 then
        round1 (((P.countP (catIs "whiff") + P.countP isContactCat : ℕ) : ℚ) /
          (P.length : ℚ) * 100)
      else 0) ∧
    (get_non_contact_summary stats P).1.whiff_per_swing =
      (if P.countP (catIs "whiff") + P.countP isContactCat > 0 then
        round1 ((P.countP (catIs "whiff") : ℚ) /
          ((P.countP (catIs "whiff") + P.countP isContactCat : ℕ) : ℚ) * 100)
      else 0) ∧
    (0 ≤ (get_non_contact_summary stats P).1.whiff_rate ∧
      (get_non_contact_summary stats P).1.whiff_rate ≤ 100) ∧
    (0 ≤ (get_non_contact_summary stats P).1.called_strike_rate ∧
      (get_non_contact_summary stats P).1.called_strike_rate ≤ 100) ∧
    (0 ≤ (get_non_contact_summary stats P).1.ball_rate ∧
      (get_non_contact_summary stats P).1.ball_rate ≤ 100) ∧
    (0 ≤ (get_non_contact_summary stats P).1.hit_by_pitch_rate ∧
      (get_non_contact_summary stats P).1.hit_by_pitch_rate ≤ 100) ∧
    (0 ≤ (get_non_contact_summary stats P).1.swing_rate ∧
      (get_non_contact_summary stats P).1.swing_rate ≤ 100) ∧
    (0 ≤ (get_non_contact_summary stats P).1.whiff_per_swing ∧
      (get_non_contact_summary stats P).1.whiff_per_swing ≤ 100) ∧
    (get_non_contact_summary stats []).1.whiff_rate = 0 ∧
    (get_non_contact_summary stats []).1.called_strike_rate = 0 ∧
    (get_non_contact_summary stats []).1.ball_rate = 0 ∧
    (get_non_contact_summary stats []).1.hit_by_pitch_rate = 0 ∧
    (get_non_contact_summary stats []).1.swing_rate = 0 ∧
    (get_non_contact_summary stats []).1.whiff_per_swing = 0 := by
  have hle : (P.filter (catIs "whiff")).length +
      (P.filter isContactCat).length ≤ P.length := by
    have := whiff_add_contact_le_length P
    simpa [List.countP_eq_length_filter] using this
  refine ⟨?_, ?_, ?_, ?_, ?_, ?_, ?_, ?_, ?_, ?_, ?_, ?_, ?_, ?_, ?_⟩ <;>
    rw [get_non_contact_summary_fst]
  · simp [List.countP_eq_length_filter]
  · simp [List.countP_eq_length_filter]
  · simp [List.countP_eq_length_filter]
  · exact guarded_rate_bounds (List.length_filter_le _ _)
  · exact guarded_rate_bounds (List.length_filter_le _ _)
  · exact guarded_rate_bounds (List.length_filter_le _ _)
  · exact guarded_rate_bounds (List.length_filter_le _ _)
  · exact guarded_rate_bounds hle
  · exact guarded_rate_bounds (Nat.le_add_right _ _)
  · simp
  · simp
  · simp
  · simp
  · simp
  · simp

/-- C7: with zero contact pitches (in particular on an empty list),
`get_contact_summary` returns the all-zero dictionary with the percentile
key absent (the early return never computes percentiles); on the empty
list every non-contact rate is 0 and `get_complete_summary` still returns
a structure with `pitches_analyzed = 0`. -/
theorem contact_summary_zero_case (stats : Stats) (P : List Pitch)
    (h : P.countP isContactCat = 0) :
    (get_contact_summary stats P).1 =
      { total_contacts := 0, fouls := 0, in_play := 0, weak_contact := 0,
        hard_contact := 0, contact_rate := 0, foul_rate := 0, in_play_rate := 0,
        avg_exit_velo := 0, max_exit_velo := 0,
        exit_velo_percentiles := PercentileField.absentKey } ∧
    (get_non_contact_summary stats []).1.whiff_rate = 0 ∧
    (get_non_contact_summary stats []).1.called_strike_rate = 0 ∧
    (get_non_contact_summary stats []).1.ball_rate = 0 ∧
    (get_non_contact_summary stats []).1.hit_by_pitch_rate = 0 ∧
    (get_non_contact_summary stats []).1.swing_rate = 0 ∧
    (get_non_contact_summary stats []).1.whiff_per_swing = 0 ∧
    (get_complete_summary stats []).1.pitches_analyzed = 0 := by
  have hnil : P.filter isContactCat = [] := by
    rw [← List.length_eq_zero, ← List.countP_eq_length_filter]
    exact h
  refine ⟨?_, ?_, ?_, ?_, ?_, ?_, ?_, rfl⟩
  · unfold get_contact_summary
    dsimp only
    rw [categorize_pitches_eq]
    dsimp only
    rw [if_pos hnil]
  all_goals (rw [get_non_contact_summary_fst]; simp)

theorem contact_summary_zero_case_witness :
    (([] : List Pitch).countP isContactCat = 0) ∧
    ((get_contact_summary reset_stats ([] : List Pitch)).1 =
      { total_contacts := 0, fouls := 0, in_play := 0, weak_contact := 0,
        hard_contact := 0, contact_rate := 0, foul_rate := 0, in_play_rate := 0,
        avg_exit_velo := 0, max_exit_velo := 0,
        exit_velo_percentiles := PercentileField.absentKey } ∧
    (get_non_contact_summary reset_stats []).1.whiff_rate = 0 ∧
    (get_non_contact_summary reset_stats []).1.called_strike_rate = 0 ∧
    (get_non_contact_summary reset_stats []).1.ball_rate = 0 ∧
    (get_non_contact_summary reset_stats []).1.hit_by_pitch_rate = 0 ∧
    (get_non_contact_summary reset_stats []).1.swing_rate = 0 ∧
    (get_non_contact_summary reset_stats []).1.whiff_per_swing = 0 ∧
    (get_complete_summary reset_stats []).1.pitches_analyzed = 0) :=
  ⟨rfl, contact_summary_zero_case reset_stats [] rfl⟩

end ContactFilter
